import Mathlib

/-!
Shallow embedding of the CtrlS game engine (src/CtrlS/src/game_engine.py and
src/CtrlS/src/utils.py).

The engine performs console I/O, dynamically imports chapter modules and
invokes entry-point attributes on them.  We model a run as the list of
observable events it emits (prints, entry-point invocations, pauses, screen
clears) together with its result: either a normal Python return value or a
propagating exception.  The import machinery (`importlib.import_module`) is
external to the engine, so it is modelled as an environment: a function from
module name to import outcome.  A chapter module is a finite attribute table
(`hasattr` consults its domain); calling an attribute either returns normally
or raises, as specified by the table.
-/

namespace CtrlS

/-- Result of a Python expression or block: a normal value, or a propagating
exception carrying its message. -/
inductive PyResult (α : Type) where
  | ok (a : α)
  | exn (e : String)
  deriving DecidableEq

/-- Behaviour of invoking a zero-argument attribute of a chapter module:
it either returns normally or raises an exception. -/
inductive CallResult where
  | ok
  | raises (e : String)
  deriving DecidableEq

/-- A chapter module: a finite attribute table mapping attribute names to the
behaviour of calling them.  `hasattr(module, a)` is membership of `a` in the
table's domain. -/
structure PyModule where
  attrs : List (String × CallResult)
  deriving DecidableEq

/-- Python `hasattr(m, a)` (game_engine.py lines 52, 55, 57). -/
def hasattr (m : PyModule) (a : String) : Bool :=
  (List.lookup a m.attrs).isSome

/-- Outcome of `importlib.import_module` on a module name: a loaded module,
an `ImportError` (the only exception `load_chapter` catches), or any other
exception (which `load_chapter` does not catch). -/
inductive ImportOutcome where
  | ok (m : PyModule)
  | importError (e : String)
  | otherExn (e : String)
  deriving DecidableEq

/-- The import environment: what `importlib.import_module` does for each
module name. -/
def Env : Type := String → ImportOutcome

/-- Messages printed by game_engine.py, one constructor per print site,
carrying the format arguments.  `Msg.render` below gives the exact text. -/
inductive Msg where
  | rcRule1
  | rcLoading (n : Nat)
  | rcRule2
  | rcSkip (n : Nat)
  | rcNoMain (n : Nat)
  | lcError (n : Nat) (e : String)
  | sgBeginning (n : Nat)
  | sgError
  | sgRule1
  | sgCompleted
  | sgRule2
  deriving DecidableEq

/-- The string `'='*60` used in the banner rules. -/
def rule60 : String := String.mk (List.replicate 60 '=')

/-- The exact text printed for each message, as in game_engine.py. -/
def Msg.render : Msg → String
  | .rcRule1 => "\n" ++ rule60
  | .rcLoading n => "LOADING CHAPTER " ++ toString n
  | .rcRule2 => rule60
  | .rcSkip n => "Chapter " ++ toString n ++ " could not be loaded. Skipping..."
  | .rcNoMain n => "No main function found in chapter " ++ toString n
  | .lcError n e => "Error loading chapter " ++ toString n ++ ": " ++ e
  | .sgBeginning n => "\n--- Beginning Chapter " ++ toString n ++ " ---"
  | .sgError => "Game encountered an error. Ending..."
  | .sgRule1 => "\n" ++ rule60
  | .sgCompleted => "ADVENTURE COMPLETED!"
  | .sgRule2 => rule60

/-- Observable events of a run of the engine. -/
inductive Event where
  /-- A print in game_engine.py. -/
  | out (m : Msg)
  /-- Invocation of entry-point attribute `a` of chapter `n`
  (the call sites at game_engine.py lines 53, 56, 58). -/
  | call (n : Nat) (a : String)
  /-- The input prompt of `press_enter_to_continue` (utils.py line 31). -/
  | pause
  /-- `clear_screen` (utils.py lines 11-18). -/
  | clearScr
  /-- `welcome_message`: the fixed banner prints and 2-second sleep
  (utils.py lines 47-55). -/
  | welcome
  /-- `end_game`: the farewell prints and final input (utils.py lines 40-44). -/
  | endGame
  deriving DecidableEq

/-- A finished computation: the events it emitted (in order), and its result
(normal value, or an exception that propagates to the caller). -/
structure Eff (α : Type) where
  trace : List Event
  result : PyResult α
  deriving DecidableEq

/-- Sequencing: run `x`; if it returned normally, continue with `f`; if it
raised, the exception propagates and the continuation never runs. -/
def Eff.bind {α β : Type} (x : Eff α) (f : α → Eff β) : Eff β :=
  match x.result with
  | .ok a => ⟨x.trace ++ (f a).trace, (f a).result⟩
  | .exn e => ⟨x.trace, .exn e⟩

/-- The `GameState` dictionary built in `GameEngine.__init__`
(game_engine.py lines 24-28). -/
structure GameState where
  player_name : String
  inventory : List String
  progress : List (String × String)
  deriving DecidableEq

/-- The engine's fields (game_engine.py lines 21-28). -/
structure GameEngine where
  current_chapter : Nat
  max_chapters : Nat
  game_state : GameState
  deriving DecidableEq

/-- `GameEngine.__init__`: current_chapter 1, max_chapters 5, empty state. -/
def initEngine : GameEngine :=
  { current_chapter := 1
    max_chapters := 5
    game_state := { player_name := "", inventory := [], progress := [] } }

/-- The module name `f"chapters.ch{chapter_num}"` (game_engine.py line 33). -/
def module_name (n : Nat) : String := "chapters.ch" ++ toString n

/-- The attribute name `f"chapter_{chapter_num}"` (game_engine.py line 55). -/
def chapter_attr (n : Nat) : String := "chapter_" ++ toString n

/-- The attribute name `f"ch{chapter_num}_main"` (game_engine.py line 57). -/
def chmain_attr (n : Nat) : String := "ch" ++ toString n ++ "_main"

/-- `GameEngine.load_chapter` (game_engine.py lines 30-38): import the module
`chapters.ch<n>`; on `ImportError` print a diagnostic and return `None`;
any other exception is not caught and propagates. -/
def load_chapter (env : Env) (n : Nat) : Eff (Option PyModule) :=
  match env (module_name n) with
  | .ok m => ⟨[], .ok (some m)⟩
  | .importError e => ⟨[.out (.lcError n e)], .ok none⟩
  | .otherExn e => ⟨[], .exn e⟩

/-- Calling attribute `a` of module `m` for chapter `n`
(`chapter_module.main()` / `getattr(chapter_module, ...)()`).  The call is
recorded as an event; if the attribute's behaviour is to raise, the
exception propagates after the call event.  (The `none` branch is
unreachable in `run_chapter`, which guards every call with `hasattr`; in
Python it would be an `AttributeError`.) -/
def call_attr (n : Nat) (m : PyModule) (a : String) : Eff Unit :=
  match List.lookup a m.attrs with
  | some .ok => ⟨[.call n a], .ok ()⟩
  | some (.raises e) => ⟨[.call n a], .exn e⟩
  | none => ⟨[], .exn "AttributeError"⟩

/-- `GameEngine.run_chapter` (game_engine.py lines 40-63): print the loading
banner; load the chapter; if absent print a skip notice and return `False`;
otherwise probe `main`, then `chapter_<n>`, then `ch<n>_main`, invoking the
first that exists and returning `True`; if none exists print a diagnostic
and return `False`. -/
def run_chapter (env : Env) (n : Nat) : Eff Bool :=
  Eff.bind ⟨[.out .rcRule1, .out (.rcLoading n), .out .rcRule2], .ok ()⟩ fun _ =>
  Eff.bind (load_chapter env n) fun om =>
  match om with
  | none => ⟨[.out (.rcSkip n)], .ok false⟩
  | some m =>
    if hasattr m "main" then
      Eff.bind (call_attr n m "main") fun _ => ⟨[], .ok true⟩
    else if hasattr m (chapter_attr n) then
      Eff.bind (call_attr n m (chapter_attr n)) fun _ => ⟨[], .ok true⟩
    else if hasattr m (chmain_attr n) then
      Eff.bind (call_attr n m (chmain_attr n)) fun _ => ⟨[], .ok true⟩
    else ⟨[.out (.rcNoMain n)], .ok false⟩

/-- `GameEngine.save_progress` (game_engine.py lines 65-68): the body is
`pass`.  It leaves the engine unchanged, emits no events, and returns
normally (no exception). -/
def save_progress (g : GameEngine) : GameEngine × Eff Unit :=
  (g, ⟨[], .ok ()⟩)

/-- `GameEngine.load_progress` (game_engine.py lines 70-73): the body is
`pass`. -/
def load_progress (g : GameEngine) : GameEngine × Eff Unit :=
  (g, ⟨[], .ok ()⟩)

/-- Result of the chapter loop (and of `start_game`): final engine state,
emitted events, and normal return or propagating exception. -/
structure LoopOut where
  engine : GameEngine
  trace : List Event
  result : PyResult Unit
  deriving DecidableEq

/-- The `for chapter in range(1, self.max_chapters + 1)` loop body of
`start_game` (game_engine.py lines 82-96), processing the listed chapter
numbers in order: print the beginning notice, run the chapter; on `False`
print the error notice and stop (`break`); on an exception stop with the
exception propagating; on `True` set `current_chapter := chapter + 1`, call
`save_progress`, and pause (with screen clear) unless this was the last
chapter. -/
def runChapters (env : Env) (g : GameEngine) : List Nat → LoopOut
  | [] => ⟨g, [], .ok ()⟩
  | n :: rest =>
    let r := run_chapter env n
    match r.result with
    | .exn e => ⟨g, .out (.sgBeginning n) :: r.trace, .exn e⟩
    | .ok false =>
        ⟨g, .out (.sgBeginning n) :: (r.trace ++ [.out .sgError]), .ok ()⟩
    | .ok true =>
        let sp := save_progress { g with current_chapter := n + 1 }
        let pauseTr : List Event :=
          if n < sp.1.max_chapters then [.pause, .clearScr] else []
        let k := runChapters env sp.1 rest
        ⟨k.engine,
         .out (.sgBeginning n) :: (r.trace ++ sp.2.trace ++ pauseTr ++ k.trace),
         k.result⟩

/-- `GameEngine.start_game` (game_engine.py lines 75-102): clear screen,
welcome banner, pause; run the chapter loop over `1..max_chapters`; then
(unless an exception aborted the loop) print the completion banner and run
`end_game`. -/
def start_game (env : Env) (g : GameEngine) : LoopOut :=
  let pre : List Event := [.clearScr, .welcome, .pause, .clearScr]
  let lp := runChapters env g (List.range' 1 g.max_chapters)
  match lp.result with
  | .exn e => ⟨lp.engine, pre ++ lp.trace, .exn e⟩
  | .ok _ =>
      ⟨lp.engine,
       pre ++ lp.trace ++
         [.out .sgRule1, .out .sgCompleted, .out .sgRule2, .endGame],
       .ok ()⟩

/-! Utility `slow_type` (utils.py lines 21-26): its own event alphabet,
since it writes raw characters rather than lines. -/

/-- Events of `slow_type`: a raw character print (`print(char, end='')`),
a delay (`time.sleep(speed)`), or a line print (`print(s)`, which writes
`s` followed by a newline). -/
inductive TypeEv where
  | ch (c : Char)
  | delay (speed : ℚ)
  | line (s : String)
  deriving DecidableEq

/-- `slow_type(text, speed)` (utils.py lines 21-26): for each character of
`text`, print it with no line end and sleep for `speed`; finally
`print("\n")`. -/
def slow_type (text : String) (speed : ℚ) : List TypeEv :=
  (text.data.flatMap fun c => [TypeEv.ch c, TypeEv.delay speed]) ++
    [TypeEv.line "\n"]

/-- `slow_type` at its default speed `0.05` = 1/20. -/
def slow_type_default (text : String) : List TypeEv :=
  slow_type text (1 / 20)

/-- The characters an event writes to stdout: `print(char, end='')` writes
the character; `time.sleep` writes nothing; `print(s)` writes `s` then a
newline (Python `print`'s default `end`). -/
def TypeEv.outChars : TypeEv → List Char
  | .ch c => [c]
  | .delay _ => []
  | .line s => s.data ++ ['\n']

/-- The full character stream a list of `TypeEv` events writes. -/
def outputChars (evs : List TypeEv) : List Char :=
  evs.flatMap TypeEv.outChars

/-- Extract the character of a raw character print, if any. -/
def TypeEv.charOf : TypeEv → Option Char
  | .ch c => some c
  | _ => none

/-! Trace-observation helpers used by the claims. -/

/-- Whether an event is the invocation of an entry point of chapter `n`. -/
def isCallOf (n : Nat) : Event → Bool
  | .call k _ => k == n
  | _ => false

/-- How many entry points of chapter `n` a trace invokes. -/
def callCount (t : List Event) (n : Nat) : Nat :=
  (t.filter (isCallOf n)).length

/-- Whether an event is an entry-point invocation (of any chapter). -/
def isCall : Event → Bool
  | .call _ _ => true
  | _ => false

/-- Whether an event is a `press_enter_to_continue` prompt. -/
def isPause : Event → Bool
  | .pause => true
  | _ => false

/-- How many times a trace prints the `ADVENTURE COMPLETED!` banner line. -/
def bannerCount (t : List Event) : Nat :=
  (t.filter fun e => e == Event.out Msg.sgCompleted).length

/-- How many times a trace runs `end_game`. -/
def endGameCount (t : List Event) : Nat :=
  (t.filter fun e => e == Event.endGame).length

/-- Whether `run_chapter env n` returns `True` (it is independent of the
engine's mutable fields, so this is a function of the environment alone). -/
def chapterSucceeds (env : Env) (n : Nat) : Bool :=
  match (run_chapter env n).result with
  | .ok true => true
  | _ => false

/-! Concrete fixtures used by witnesses and counterexamples. -/

/-- A chapter module exposing a well-behaved `main`. -/
def mMainOk : PyModule := ⟨[("main", CallResult.ok)]⟩

/-- A chapter module exposing both `main` and `chapter_1`. -/
def mBoth : PyModule := ⟨[("main", CallResult.ok), ("chapter_1", CallResult.ok)]⟩

/-- A chapter module whose `main` raises. -/
def mRaisesMain : PyModule := ⟨[("main", CallResult.raises "RuntimeError")]⟩

/-- An environment where every chapter module resolves to `mMainOk`. -/
def envAllGood : Env := fun _ => .ok mMainOk

/-- An environment where chapter 3 fails to import and every other module
resolves to `mMainOk`. -/
def envFailAt3 : Env := fun s =>
  if s = module_name 3 then .importError "No module named chapters.ch3"
  else .ok mMainOk

/-- An environment where no chapter module can be imported. -/
def envAllAbsent : Env := fun _ => .importError "No module named chapters"

/-- An environment where chapter 1 resolves to the two-entry-point module
`mBoth` and nothing else resolves. -/
def envBothAt1 : Env := fun s =>
  if s = module_name 1 then .ok mBoth
  else .importError "No module named chapters"

/-- An environment where chapter 1 resolves to a module whose `main`
raises. -/
def envRaisesAt1 : Env := fun s =>
  if s = module_name 1 then .ok mRaisesMain
  else .importError "No module named chapters"

/-- An environment where importing any chapter module raises a
non-ImportError exception. -/
def envOtherExn : Env := fun _ => .otherExn "KeyboardInterrupt"

end CtrlS

namespace CtrlS

/-- C1: for every chapter number n in 1..5, if `load_chapter(n)` resolves a
unit, `run_chapter(n)` invokes exactly one entry point when at least one of
the three recognized names (`main`, `chapter_<n>`, `ch<n>_main`) exists on
the unit, choosing it by the fixed priority order (main first, then
chapter_<n>, then ch<n>_main); it invokes zero entry points and returns
false when none of the three exists; and if a unit exposes both `main` and
`chapter_<n>`, only `main` is invoked. -/
theorem C1_run_chapter_priority (env : Env) (n : Nat) (m : PyModule)
    (_hn : 1 ≤ n ∧ n ≤ 5)
    (hres : env (module_name n) = ImportOutcome.ok m) :
    ((run_chapter env n).trace.filter isCall =
      (if hasattr m "main" then [Event.call n "main"]
       else if hasattr m (chapter_attr n) then [Event.call n (chapter_attr n)]
       else if hasattr m (chmain_attr n) then [Event.call n (chmain_attr n)]
       else []))
    ∧ ((hasattr m "main" || hasattr m (chapter_attr n) ||
          hasattr m (chmain_attr n)) = true →
        ((run_chapter env n).trace.filter isCall).length = 1)
    ∧ ((hasattr m "main" || hasattr m (chapter_attr n) ||
          hasattr m (chmain_attr n)) = false →
        (run_chapter env n).trace.filter isCall = [] ∧
        (run_chapter env n).result = PyResult.ok false)
    ∧ ((hasattr m "main" = true ∧ hasattr m (chapter_attr n) = true) →
        (run_chapter env n).trace.filter isCall = [Event.call n "main"]) := by
  unfold run_chapter load_chapter
  rw [hres]
  cases hmain : List.lookup "main" m.attrs with
  | some r =>
    cases r <;>
      simp [Eff.bind, hasattr, hmain, call_attr, isCall]
  | none =>
    cases hcn : List.lookup (chapter_attr n) m.attrs with
    | some r =>
      cases r <;>
        simp [Eff.bind, hasattr, hmain, hcn, call_attr, isCall]
    | none =>
      cases hcm : List.lookup (chmain_attr n) m.attrs with
      | some r =>
        cases r <;>
          simp [Eff.bind, hasattr, hmain, hcn, hcm, call_attr, isCall]
      | none =>
        simp [Eff.bind, hasattr, hmain, hcn, hcm, isCall]

/-- Witness for C1 at a concrete input: chapter 1 resolves to a module
exposing both `main` and `chapter_1`, and only `main` is invoked. -/
theorem C1_witness :
    (run_chapter envBothAt1 1).trace.filter isCall = [Event.call 1 "main"] :=
  (C1_run_chapter_priority envBothAt1 1 mBoth (by decide) (by decide)).2.2.2
    (by decide)

/-- C2 fails on the code: when the resolved unit's entry point raises,
`run_chapter` does not catch it, so the exception propagates past the
Runner boundary instead of being converted to a boolean. -/
theorem C2_counterexample :
    (run_chapter envRaisesAt1 1).result = PyResult.exn "RuntimeError" := by
  decide

/-- C2 amended: an `ImportError` while importing the chapter module and a
missing entry point are converted to boolean/absent signals at the
`load_chapter`/`run_chapter` boundary without raising; but an exception
raised by the invoked entry point, and a non-ImportError exception raised
during import, propagate past `run_chapter` to the caller. -/
theorem C2_runner_boundary (env : Env) (n : Nat) :
    (∀ e, env (module_name n) = ImportOutcome.importError e →
      (load_chapter env n).result = PyResult.ok none ∧
      (run_chapter env n).result = PyResult.ok false)
    ∧ (∀ m, env (module_name n) = ImportOutcome.ok m →
        (hasattr m "main" || hasattr m (chapter_attr n) ||
          hasattr m (chmain_attr n)) = false →
      (run_chapter env n).result = PyResult.ok false)
    ∧ (∀ m e, env (module_name n) = ImportOutcome.ok m →
        List.lookup "main" m.attrs = some (CallResult.raises e) →
      (run_chapter env n).result = PyResult.exn e)
    ∧ (∀ e, env (module_name n) = ImportOutcome.otherExn e →
      (run_chapter env n).result = PyResult.exn e) := by
  refine ⟨fun e h => ?_, fun m h hattr => ?_, fun m e h hmain => ?_,
    fun e h => ?_⟩
  · unfold run_chapter load_chapter
    rw [h]
    simp [Eff.bind]
  · unfold run_chapter load_chapter
    rw [h]
    simp only [Bool.or_eq_false_iff] at hattr
    simp [Eff.bind, hattr.1.1, hattr.1.2, hattr.2]
  · unfold run_chapter load_chapter
    rw [h]
    simp [Eff.bind, hasattr, hmain, call_attr]
  · unfold run_chapter load_chapter
    rw [h]
    simp [Eff.bind]

/-- Witness for C2 (amended) at a concrete input: a non-ImportError raised
while importing chapter 2 propagates out of `run_chapter`. -/
theorem C2_witness :
    (run_chapter envOtherExn 2).result = PyResult.exn "KeyboardInterrupt" :=
  (C2_runner_boundary envOtherExn 2).2.2.2 "KeyboardInterrupt" rfl

/-- C5: `load_chapter(n)` applied to a non-resolvable chapter number (where
importing raises `ImportError`) prints a diagnostic, returns the absent value
`None`, and does not raise past its own boundary. -/
theorem C5_load_chapter_absent (env : Env) (n : Nat) (e : String)
    (h : env (module_name n) = ImportOutcome.importError e) :
    load_chapter env n =
      ⟨[Event.out (Msg.lcError n e)], PyResult.ok none⟩ := by
  unfold load_chapter
  rw [h]

/-- Witness for C5 at a concrete input: chapter 9 does not resolve. -/
theorem C5_witness :
    load_chapter envAllAbsent 9 =
      ⟨[Event.out (Msg.lcError 9 "No module named chapters")],
        PyResult.ok none⟩ :=
  C5_load_chapter_absent envAllAbsent 9 "No module named chapters" rfl

/-- C7: `save_progress` and `load_progress` leave the engine (and hence
`current_chapter`, `max_chapters` and `game_state`) entirely unchanged,
emit no events, and return normally (never raise), for every engine
state. -/
theorem C7_progress_stubs (g : GameEngine) :
    save_progress g = (g, ⟨[], PyResult.ok ()⟩) ∧
    load_progress g = (g, ⟨[], PyResult.ok ()⟩) :=
  ⟨rfl, rfl⟩

/-! Helper lemmas about the traces of `run_chapter` and the chapter loop. -/

/-- `run_chapter` never prints the completion banner, never runs `end_game`
and never pauses: its trace consists of its own prints and at most one
entry-point invocation. -/
theorem run_chapter_pure_out (env : Env) (n : Nat) :
    ∀ ev ∈ (run_chapter env n).trace,
      ev ≠ Event.out Msg.sgCompleted ∧ ev ≠ Event.endGame ∧
      ev ≠ Event.pause := by
  unfold run_chapter load_chapter
  cases henv : env (module_name n) with
  | ok m =>
    cases hmain : List.lookup "main" m.attrs with
    | some r =>
      cases r <;> simp [Eff.bind, hasattr, hmain, call_attr]
    | none =>
      cases hcn : List.lookup (chapter_attr n) m.attrs with
      | some r =>
        cases r <;> simp [Eff.bind, hasattr, hmain, hcn, call_attr]
      | none =>
        cases hcm : List.lookup (chmain_attr n) m.attrs with
        | some r =>
          cases r <;> simp [Eff.bind, hasattr, hmain, hcn, hcm, call_attr]
        | none =>
          simp [Eff.bind, hasattr, hmain, hcn, hcm]
  | importError e => simp [Eff.bind]
  | otherExn e => simp [Eff.bind]

/-- The chapter loop never prints the completion banner and never runs
`end_game`: those happen only after the loop, in `start_game`. -/
theorem runChapters_pure (env : Env) (g : GameEngine) (l : List Nat) :
    ∀ ev ∈ (runChapters env g l).trace,
      ev ≠ Event.out Msg.sgCompleted ∧ ev ≠ Event.endGame := by
  induction l generalizing g with
  | nil => simp [runChapters]
  | cons n rest ih =>
    intro ev hev
    have hrc := run_chapter_pure_out env n
    cases hres : (run_chapter env n).result with
    | exn e =>
      simp only [runChapters, hres] at hev
      rcases List.mem_cons.mp hev with h | h
      · subst h; simp
      · exact ⟨(hrc ev h).1, (hrc ev h).2.1⟩
    | ok b =>
      cases b with
      | false =>
        simp only [runChapters, hres] at hev
        rcases List.mem_cons.mp hev with h | h
        · subst h; simp
        · rcases List.mem_append.mp h with h | h
          · exact ⟨(hrc ev h).1, (hrc ev h).2.1⟩
          · simp only [List.mem_singleton] at h
            subst h; simp
      | true =>
        simp only [runChapters, hres, save_progress] at hev
        rcases List.mem_cons.mp hev with h | h
        · subst h; simp
        · simp only [List.append_nil, List.nil_append,
            List.mem_append] at h
          rcases h with (h | h) | h
          · exact ⟨(hrc ev h).1, (hrc ev h).2.1⟩
          · have h2 : ev = Event.pause ∨ ev = Event.clearScr := by
              split at h <;> simp_all
            rcases h2 with h2 | h2 <;> subst h2 <;> simp
          · exact ih _ ev h

/-- Counting helper: banner prints add over concatenation. -/
theorem bannerCount_append (s t : List Event) :
    bannerCount (s ++ t) = bannerCount s + bannerCount t := by
  simp [bannerCount]

/-- Counting helper: `end_game` runs add over concatenation. -/
theorem endGameCount_append (s t : List Event) :
    endGameCount (s ++ t) = endGameCount s + endGameCount t := by
  simp [endGameCount]

/-- A trace without the banner print has banner count zero. -/
theorem bannerCount_eq_zero {t : List Event}
    (h : ∀ ev ∈ t, ev ≠ Event.out Msg.sgCompleted) : bannerCount t = 0 := by
  have hf : t.filter (fun e => e == Event.out Msg.sgCompleted) = [] := by
    rw [List.filter_eq_nil_iff]
    intro a ha
    simpa using h a ha
  simp [bannerCount, hf]

/-- A trace without an `end_game` event has `end_game` count zero. -/
theorem endGameCount_eq_zero {t : List Event}
    (h : ∀ ev ∈ t, ev ≠ Event.endGame) : endGameCount t = 0 := by
  have hf : t.filter (fun e => e == Event.endGame) = [] := by
    rw [List.filter_eq_nil_iff]
    intro a ha
    simpa using h a ha
  simp [endGameCount, hf]

/-- The chapter loop changes neither `game_state` nor `max_chapters`. -/
theorem runChapters_frame (env : Env) (g : GameEngine) (l : List Nat) :
    (runChapters env g l).engine.game_state = g.game_state ∧
    (runChapters env g l).engine.max_chapters = g.max_chapters := by
  induction l generalizing g with
  | nil => exact ⟨rfl, rfl⟩
  | cons n rest ih =>
    cases hres : (run_chapter env n).result with
    | exn e => simp [runChapters, hres]
    | ok b =>
      cases b with
      | false => simp [runChapters, hres]
      | true =>
        simpa [runChapters, hres, save_progress] using
          ih { g with current_chapter := n + 1 }

/-- The engine `start_game` ends with is the engine the chapter loop ends
with (the post-loop code only prints). -/
theorem start_game_engine (env : Env) (g : GameEngine) :
    (start_game env g).engine =
      (runChapters env g (List.range' 1 g.max_chapters)).engine := by
  simp only [start_game]
  cases hres : (runChapters env g (List.range' 1 g.max_chapters)).result with
  | ok a => rfl
  | exn e => rfl

/-- The loop advances `current_chapter` to `n + 1` exactly after each
successful chapter `n`, so over a contiguous chapter range it ends at the
start plus the length of the successful prefix. -/
theorem runChapters_current (env : Env) (len : Nat) :
    ∀ (c : Nat) (g : GameEngine), g.current_chapter = c →
      (runChapters env g (List.range' c len)).engine.current_chapter
        = c + ((List.range' c len).takeWhile (chapterSucceeds env)).length := by
  induction len with
  | zero => intro c g hg; simpa [runChapters] using hg
  | succ len ih =>
    intro c g hg
    rw [List.range'_succ]
    cases hres : (run_chapter env c).result with
    | exn e =>
      have hs : chapterSucceeds env c = false := by
        simp [chapterSucceeds, hres]
      simp [runChapters, hres, hs, hg]
    | ok b =>
      cases b with
      | false =>
        have hs : chapterSucceeds env c = false := by
          simp [chapterSucceeds, hres]
        simp [runChapters, hres, hs, hg]
      | true =>
        have hs : chapterSucceeds env c = true := by
          simp [chapterSucceeds, hres]
        have := ih (c + 1) { g with current_chapter := c + 1 } rfl
        simp only [runChapters, hres, save_progress] at *
        rw [List.takeWhile_cons_of_pos hs]
        simp only [List.length_cons]
        omega

/-- `takeWhile` never returns more elements than its input has. -/
theorem takeWhile_len_le {α : Type} (p : α → Bool) (l : List α) :
    (l.takeWhile p).length ≤ l.length := by
  induction l with
  | nil => simp
  | cons a t ih =>
    rw [List.takeWhile_cons]
    cases h : p a
    · simp
    · simp [h]
      omega

/-- `slow_type`'s character/delay section writes exactly the characters. -/
theorem slow_type_chars_out (cs : List Char) (speed : ℚ) :
    ((cs.flatMap fun c => [TypeEv.ch c, TypeEv.delay speed]).flatMap
        TypeEv.outChars) = cs := by
  induction cs with
  | nil => rfl
  | cons c t ih => simp [TypeEv.outChars, ih]

/-- The raw character prints of `slow_type`'s character/delay section are
the characters of the text, in order. -/
theorem slow_type_chars (cs : List Char) (speed : ℚ) :
    ((cs.flatMap fun c => [TypeEv.ch c, TypeEv.delay speed]).filterMap
        TypeEv.charOf) = cs := by
  induction cs with
  | nil => rfl
  | cons c t ih => simp [TypeEv.charOf, ih]

/-- `slow_type`'s character/delay section sleeps once per character. -/
theorem slow_type_delay_count (cs : List Char) (speed : ℚ) :
    ((cs.flatMap fun c => [TypeEv.ch c, TypeEv.delay speed]).filter
        (fun e => e == TypeEv.delay speed)).length = cs.length := by
  induction cs with
  | nil => rfl
  | cons c t ih => simp [ih]

/-- C3: against a sequence of 5 chapters where chapters 1 and 2 succeed and
chapter 3 fails to load, `start_game` invokes the entry points of chapters
1 and 2, never invokes chapters 3, 4 or 5 (the loop stops at the first
failure), and still prints the completion banner exactly once. -/
theorem C3_stop_at_first_failure (env : Env) (m1 m2 : PyModule) (e : String)
    (h1 : env (module_name 1) = ImportOutcome.ok m1)
    (hm1 : List.lookup "main" m1.attrs = some CallResult.ok)
    (h2 : env (module_name 2) = ImportOutcome.ok m2)
    (hm2 : List.lookup "main" m2.attrs = some CallResult.ok)
    (h3 : env (module_name 3) = ImportOutcome.importError e) :
    callCount (start_game env initEngine).trace 1 = 1 ∧
    callCount (start_game env initEngine).trace 2 = 1 ∧
    callCount (start_game env initEngine).trace 3 = 0 ∧
    callCount (start_game env initEngine).trace 4 = 0 ∧
    callCount (start_game env initEngine).trace 5 = 0 ∧
    bannerCount (start_game env initEngine).trace = 1 := by
  have hr1 : run_chapter env 1 =
      ⟨[.out .rcRule1, .out (.rcLoading 1), .out .rcRule2, .call 1 "main"],
        .ok true⟩ := by
    unfold run_chapter load_chapter
    rw [h1]
    simp [Eff.bind, hasattr, hm1, call_attr]
  have hr2 : run_chapter env 2 =
      ⟨[.out .rcRule1, .out (.rcLoading 2), .out .rcRule2, .call 2 "main"],
        .ok true⟩ := by
    unfold run_chapter load_chapter
    rw [h2]
    simp [Eff.bind, hasattr, hm2, call_attr]
  have hr3 : run_chapter env 3 =
      ⟨[.out .rcRule1, .out (.rcLoading 3), .out .rcRule2,
        .out (.lcError 3 e), .out (.rcSkip 3)], .ok false⟩ := by
    unfold run_chapter load_chapter
    rw [h3]
    simp [Eff.bind]
  have hrange : List.range' 1 initEngine.max_chapters = [1, 2, 3, 4, 5] := rfl
  refine ⟨?_, ?_, ?_, ?_, ?_, ?_⟩ <;>
    simp [start_game, hrange, runChapters, hr1, hr2, hr3, save_progress,
      initEngine, callCount, isCallOf, bannerCount]

/-- Witness for C3 at a concrete input: the environment where chapter 3
fails to import and every other chapter exposes a working `main`. -/
theorem C3_witness :
    callCount (start_game envFailAt3 initEngine).trace 1 = 1 ∧
    callCount (start_game envFailAt3 initEngine).trace 2 = 1 ∧
    callCount (start_game envFailAt3 initEngine).trace 3 = 0 ∧
    callCount (start_game envFailAt3 initEngine).trace 4 = 0 ∧
    callCount (start_game envFailAt3 initEngine).trace 5 = 0 ∧
    bannerCount (start_game envFailAt3 initEngine).trace = 1 :=
  C3_stop_at_first_failure envFailAt3 mMainOk mMainOk
    "No module named chapters.ch3"
    (by decide) (by decide) (by decide) (by decide) (by decide)

set_option maxRecDepth 8000 in
/-- C4: against a sequence where all 5 chapters succeed, `start_game`
invokes each chapter's entry point exactly once, in increasing order
1,2,3,4,5, with exactly 4 intermediate pause prompts strictly between
consecutive chapters and none after chapter 5 (the leading pause in the
filtered trace below is the pre-loop acknowledgment after the welcome
banner). -/
theorem C4_all_chapters_succeed (env : Env) (m1 m2 m3 m4 m5 : PyModule)
    (h1 : env (module_name 1) = ImportOutcome.ok m1)
    (hm1 : List.lookup "main" m1.attrs = some CallResult.ok)
    (h2 : env (module_name 2) = ImportOutcome.ok m2)
    (hm2 : List.lookup "main" m2.attrs = some CallResult.ok)
    (h3 : env (module_name 3) = ImportOutcome.ok m3)
    (hm3 : List.lookup "main" m3.attrs = some CallResult.ok)
    (h4 : env (module_name 4) = ImportOutcome.ok m4)
    (hm4 : List.lookup "main" m4.attrs = some CallResult.ok)
    (h5 : env (module_name 5) = ImportOutcome.ok m5)
    (hm5 : List.lookup "main" m5.attrs = some CallResult.ok) :
    ((start_game env initEngine).trace.filter
        (fun ev => isCall ev || isPause ev)) =
      [Event.pause, Event.call 1 "main", Event.pause, Event.call 2 "main",
       Event.pause, Event.call 3 "main", Event.pause, Event.call 4 "main",
       Event.pause, Event.call 5 "main"] ∧
    callCount (start_game env initEngine).trace 1 = 1 ∧
    callCount (start_game env initEngine).trace 2 = 1 ∧
    callCount (start_game env initEngine).trace 3 = 1 ∧
    callCount (start_game env initEngine).trace 4 = 1 ∧
    callCount (start_game env initEngine).trace 5 = 1 := by
  have hr1 : run_chapter env 1 =
      ⟨[.out .rcRule1, .out (.rcLoading 1), .out .rcRule2, .call 1 "main"],
        .ok true⟩ := by
    unfold run_chapter load_chapter
    rw [h1]
    simp [Eff.bind, hasattr, hm1, call_attr]
  have hr2 : run_chapter env 2 =
      ⟨[.out .rcRule1, .out (.rcLoading 2), .out .rcRule2, .call 2 "main"],
        .ok true⟩ := by
    unfold run_chapter load_chapter
    rw [h2]
    simp [Eff.bind, hasattr, hm2, call_attr]
  have hr3 : run_chapter env 3 =
      ⟨[.out .rcRule1, .out (.rcLoading 3), .out .rcRule2, .call 3 "main"],
        .ok true⟩ := by
    unfold run_chapter load_chapter
    rw [h3]
    simp [Eff.bind, hasattr, hm3, call_attr]
  have hr4 : run_chapter env 4 =
      ⟨[.out .rcRule1, .out (.rcLoading 4), .out .rcRule2, .call 4 "main"],
        .ok true⟩ := by
    unfold run_chapter load_chapter
    rw [h4]
    simp [Eff.bind, hasattr, hm4, call_attr]
  have hr5 : run_chapter env 5 =
      ⟨[.out .rcRule1, .out (.rcLoading 5), .out .rcRule2, .call 5 "main"],
        .ok true⟩ := by
    unfold run_chapter load_chapter
    rw [h5]
    simp [Eff.bind, hasattr, hm5, call_attr]
  have hrange : List.range' 1 initEngine.max_chapters = [1, 2, 3, 4, 5] := rfl
  refine ⟨?_, ?_, ?_, ?_, ?_, ?_⟩ <;>
    simp [start_game, hrange, runChapters, hr1, hr2, hr3, hr4, hr5,
      save_progress, initEngine, callCount, isCallOf, isCall, isPause]

/-- Witness for C4 at a concrete input: every chapter resolves to a module
with a working `main`. -/
theorem C4_witness :
    ((start_game envAllGood initEngine).trace.filter
        (fun ev => isCall ev || isPause ev)) =
      [Event.pause, Event.call 1 "main", Event.pause, Event.call 2 "main",
       Event.pause, Event.call 3 "main", Event.pause, Event.call 4 "main",
       Event.pause, Event.call 5 "main"] ∧
    callCount (start_game envAllGood initEngine).trace 1 = 1 ∧
    callCount (start_game envAllGood initEngine).trace 2 = 1 ∧
    callCount (start_game envAllGood initEngine).trace 3 = 1 ∧
    callCount (start_game envAllGood initEngine).trace 4 = 1 ∧
    callCount (start_game envAllGood initEngine).trace 5 = 1 :=
  C4_all_chapters_succeed envAllGood mMainOk mMainOk mMainOk mMainOk mMainOk
    (by decide) (by decide) (by decide) (by decide) (by decide)
    (by decide) (by decide) (by decide) (by decide) (by decide)

/-- C6: whenever the chapter loop terminates normally (it completed all
chapters, or was broken early by a chapter returning failure), `start_game`
prints the fixed `ADVENTURE COMPLETED!` banner exactly once and runs
`end_game` exactly once. -/
theorem C6_completion_banner (env : Env) (g : GameEngine)
    (h : (runChapters env g (List.range' 1 g.max_chapters)).result
        = PyResult.ok ()) :
    bannerCount (start_game env g).trace = 1 ∧
    endGameCount (start_game env g).trace = 1 := by
  have hpure := runChapters_pure env g (List.range' 1 g.max_chapters)
  have hb0 : bannerCount
      (runChapters env g (List.range' 1 g.max_chapters)).trace = 0 :=
    bannerCount_eq_zero (fun ev hev => (hpure ev hev).1)
  have he0 : endGameCount
      (runChapters env g (List.range' 1 g.max_chapters)).trace = 0 :=
    endGameCount_eq_zero (fun ev hev => (hpure ev hev).2)
  have hbpre : bannerCount
      [Event.clearScr, Event.welcome, Event.pause, Event.clearScr] = 0 := by
    decide
  have hepre : endGameCount
      [Event.clearScr, Event.welcome, Event.pause, Event.clearScr] = 0 := by
    decide
  have hbtail : bannerCount
      [Event.out Msg.sgRule1, Event.out Msg.sgCompleted,
       Event.out Msg.sgRule2, Event.endGame] = 1 := by decide
  have hetail : endGameCount
      [Event.out Msg.sgRule1, Event.out Msg.sgCompleted,
       Event.out Msg.sgRule2, Event.endGame] = 1 := by decide
  simp only [start_game, h]
  constructor
  · simp only [bannerCount] at hb0 ⊢
    simp [hb0]
  · simp only [endGameCount] at he0 ⊢
    simp [he0]

/-- Witness for C6 at a concrete input: no chapter can be imported, the
loop breaks at chapter 1, and the banner and farewell still happen once. -/
theorem C6_witness :
    bannerCount (start_game envAllAbsent initEngine).trace = 1 ∧
    endGameCount (start_game envAllAbsent initEngine).trace = 1 :=
  C6_completion_banner envAllAbsent initEngine (by decide)

/-- C8 fails on the code: `slow_type` ends with `print("\n")`, and Python's
`print` appends its own newline, so the text is followed by two newline
characters, not a single trailing newline. -/
theorem C8_counterexample :
    outputChars (slow_type_default "a") ≠ "a".data ++ ['\n'] := by
  decide

/-- C8 amended: `slow_type(text, speed)` emits exactly the characters of
`text` in order, one at a time with a per-character delay (default speed
0.05 = 1/20), and then appends two trailing newline characters after the
text (an explicit `"\n"` printed by a `print` that itself appends a
newline). -/
theorem C8_slow_type_output (text : String) (speed : ℚ) :
    (slow_type text speed).filterMap TypeEv.charOf = text.data ∧
    outputChars (slow_type text speed) = text.data ++ ['\n', '\n'] ∧
    ((slow_type text speed).filter
        (fun e => e == TypeEv.delay speed)).length = text.length ∧
    slow_type_default text = slow_type text (1 / 20) := by
  refine ⟨?_, ?_, ?_, rfl⟩
  · simp [slow_type, List.filterMap_append, slow_type_chars, TypeEv.charOf]
  · simp only [outputChars, slow_type, List.flatMap_append,
      slow_type_chars_out]
    rfl
  · have hline : List.filter (fun e => e == TypeEv.delay speed)
        [TypeEv.line "\n"] = [] := rfl
    have hlen : text.length = text.data.length := rfl
    rw [slow_type, List.filter_append, hline, List.append_nil,
      slow_type_delay_count, hlen]

/-- C9: no operation of the engine mutates `game_state` or `max_chapters`;
starting from the initial engine the state stays the empty record, and the
only field `start_game` mutates is `current_chapter`. -/
theorem C9_game_state_immutable (env : Env) (g : GameEngine) :
    (start_game env g).engine.game_state = g.game_state ∧
    (start_game env g).engine.max_chapters = g.max_chapters ∧
    (save_progress g).1 = g ∧ (load_progress g).1 = g ∧
    (start_game env initEngine).engine.game_state.player_name = "" ∧
    (start_game env initEngine).engine.game_state.inventory = [] ∧
    (start_game env initEngine).engine.game_state.progress = [] := by
  have hf := runChapters_frame env g (List.range' 1 g.max_chapters)
  have hg := start_game_engine env g
  have hf2 := runChapters_frame env initEngine
    (List.range' 1 initEngine.max_chapters)
  have hg2 := start_game_engine env initEngine
  refine ⟨?_, ?_, rfl, rfl, ?_, ?_, ?_⟩
  · rw [hg]; exact hf.1
  · rw [hg]; exact hf.2
  · rw [hg2, hf2.1]
    rfl
  · rw [hg2, hf2.1]
    rfl
  · rw [hg2, hf2.1]
    rfl

/-- C10: invariant of the `start_game` loop: over any prefix of the chapter
range, and at the end of the full run, `current_chapter` equals 1 plus the
number of chapters for which `run_chapter` returned true (the successful
prefix, since the loop stops at the first failure); in particular it always
lies in `1..max_chapters+1`. -/
theorem C10_current_chapter_invariant (env : Env) :
    (∀ k, k ≤ 5 →
      (runChapters env initEngine (List.range' 1 k)).engine.current_chapter
        = 1 + ((List.range' 1 k).takeWhile (chapterSucceeds env)).length) ∧
    (start_game env initEngine).engine.current_chapter
        = 1 + ((List.range' 1 5).takeWhile (chapterSucceeds env)).length ∧
    1 ≤ (start_game env initEngine).engine.current_chapter ∧
    (start_game env initEngine).engine.current_chapter
        ≤ initEngine.max_chapters + 1 := by
  have hk : ∀ k,
      (runChapters env initEngine (List.range' 1 k)).engine.current_chapter
        = 1 + ((List.range' 1 k).takeWhile (chapterSucceeds env)).length :=
    fun k => runChapters_current env k 1 initEngine rfl
  have hsg : (start_game env initEngine).engine =
      (runChapters env initEngine (List.range' 1 5)).engine :=
    start_game_engine env initEngine
  have hlen := takeWhile_len_le (chapterSucceeds env) (List.range' 1 5)
  have hlen5 : (List.range' 1 5).length = 5 := rfl
  refine ⟨fun k _ => hk k, ?_, ?_, ?_⟩
  · rw [hsg]; exact hk 5
  · rw [hsg, hk 5]; omega
  · rw [hsg, hk 5]
    rw [hlen5] at hlen
    have hmax : initEngine.max_chapters = 5 := rfl
    omega

/-- Witness for C10 at a concrete input: all chapters succeed, the loop
runs to the end and `current_chapter` finishes at 1 plus the successful
prefix length. -/
theorem C10_witness :
    (runChapters envAllGood initEngine
        (List.range' 1 5)).engine.current_chapter
      = 1 + ((List.range' 1 5).takeWhile
          (chapterSucceeds envAllGood)).length :=
  (C10_current_chapter_invariant envAllGood).1 5 (by decide)

end CtrlS
